import Mathlib

/-!
# Verification of the carlink24 vehicle-sync pipeline

Shallow embedding of `src/sync-vehicles.js`: the lexical normalizer, field
parsers, fingerprint identity engine, dedup filter, image-loop, listing
assembler and run orchestrator, together with theorems settling the frozen
claims about that code.

JavaScript values are modelled as follows: nullable strings are `Option String`
(`none` = `null`/`undefined`), nullable numbers are `Option Nat`, objects used
as string-to-string tables are ordered association lists (`Object.entries`
iteration order = insertion order), and machine integers arising inside MD5 are
`Nat` reduced `% 2^32` wherever the JS `>>>`/`|0` semantics would wrap.
-/

namespace Carlink

/-! ### JavaScript-style string helpers -/

/-- JS `hay.includes(needle)`: contiguous substring containment on char lists. -/
def charsContain (hay needle : List Char) : Bool :=
  match hay with
  | [] => needle.isEmpty
  | c :: t => needle.isPrefixOf (c :: t) || charsContain t needle

/-- JS `s.includes(sub)` on strings. -/
def jsIncludes (s sub : String) : Bool :=
  charsContain s.toList sub.toList

/-- JS `toLowerCase`, char by char (ASCII case mapping). -/
def jsToLower (s : String) : String :=
  String.mk (s.toList.map Char.toLower)

/-- Strip leading and trailing whitespace from a char list. -/
def trimChars (cs : List Char) : List Char :=
  ((cs.dropWhile Char.isWhitespace).reverse.dropWhile Char.isWhitespace).reverse

/-- JS `trim`. -/
def jsTrim (s : String) : String :=
  String.mk (trimChars s.toList)

/-- JS `split(sep)` for a single-character separator (keeps empty pieces). -/
def splitChar (sep : Char) : List Char → List (List Char)
  | [] => [[]]
  | c :: t =>
    let r := splitChar sep t
    if c = sep then [] :: r
    else (c :: r.headD []) :: r.tail

/-- JS `s.split(sep)` on strings. -/
def jsSplit (s : String) (sep : Char) : List String :=
  (splitChar sep s.toList).map String.mk

/-- JS `s.startsWith(p)`. -/
def jsStartsWith (s p : String) : Bool :=
  p.toList.isPrefixOf s.toList

/-- JS `s || ''` for a nullable string: `null`/`undefined` and `""` are falsy. -/
def jsStrOrEmpty : Option String → String
  | none => ""
  | some s => if s = "" then "" else s

/-- JS `n || ''` for a nullable number interpolated into a template: `0` is falsy. -/
def jsNumOrEmpty : Option Nat → String
  | none => ""
  | some n => if n = 0 then "" else toString n

/-- JS template interpolation `${x}` of a nullable string: `null` prints as "null". -/
def jsShow : Option String → String
  | none => "null"
  | some s => s

/-! ### MD5 (crypto.createHash('md5') … digest('hex'))

Byte-level MD5 over `List Nat` (each entry < 256), all 32-bit state reduced
`% 4294967296`. -/

/-- Per-round left-rotation amounts. -/
def md5S : List Nat :=
  [7, 12, 17, 22, 7, 12, 17, 22, 7, 12, 17, 22, 7, 12, 17, 22,
   5, 9, 14, 20, 5, 9, 14, 20, 5, 9, 14, 20, 5, 9, 14, 20,
   4, 11, 16, 23, 4, 11, 16, 23, 4, 11, 16, 23, 4, 11, 16, 23,
   6, 10, 15, 21, 6, 10, 15, 21, 6, 10, 15, 21, 6, 10, 15, 21]

/-- Per-round additive constants (⌊2³² · |sin(i+1)|⌋). -/
def md5K : List Nat :=
  [0xd76aa478, 0xe8c7b756, 0x242070db, 0xc1bdceee,
   0xf57c0faf, 0x4787c62a, 0xa8304613, 0xfd469501,
   0x698098d8, 0x8b44f7af, 0xffff5bb1, 0x895cd7be,
   0x6b901122, 0xfd987193, 0xa679438e, 0x49b40821,
   0xf61e2562, 0xc040b340, 0x265e5a51, 0xe9b6c7aa,
   0xd62f105d, 0x02441453, 0xd8a1e681, 0xe7d3fbc8,
   0x21e1cde6, 0xc33707d6, 0xf4d50d87, 0x455a14ed,
   0xa9e3e905, 0xfcefa3f8, 0x676f02d9, 0x8d2a4c8a,
   0xfffa3942, 0x8771f681, 0x6d9d6122, 0xfde5380c,
   0xa4beea44, 0x4bdecfa9, 0xf6bb4b60, 0xbebfbc70,
   0x289b7ec6, 0xeaa127fa, 0xd4ef3085, 0x04881d05,
   0xd9d4d039, 0xe6db99e5, 0x1fa27cf8, 0xc4ac5665,
   0xf4292244, 0x432aff97, 0xab9423a7, 0xfc93a039,
   0x655b59c3, 0x8f0ccc92, 0xffeff47d, 0x85845dd1,
   0x6fa87e4f, 0xfe2ce6e0, 0xa3014314, 0x4e0811a1,
   0xf7537e82, 0xbd3af235, 0x2ad7d2bb, 0xeb86d391]

/-- Append the 0x80 marker, zero padding to 56 mod 64, and the 64-bit
little-endian bit length. -/
def md5Pad (msg : List Nat) : List Nat :=
  let len := msg.length
  let zeros := List.replicate ((119 - len % 64) % 64) 0
  let lenBytes := (List.range 8).map (fun i => ((8 * len) >>> (8 * i)) % 256)
  msg ++ [0x80] ++ zeros ++ lenBytes

/-- Little-endian 32-bit word `j` of a 64-byte chunk. -/
def leWord (chunk : List Nat) (j : Nat) : Nat :=
  chunk.getD (4 * j) 0 + 256 * chunk.getD (4 * j + 1) 0 +
    65536 * chunk.getD (4 * j + 2) 0 + 16777216 * chunk.getD (4 * j + 3) 0

/-- 32-bit left rotation. -/
def rotl32 (x n : Nat) : Nat :=
  ((x <<< n) + (x >>> (32 - n))) % 4294967296

/-- Round function and message-word schedule for round `i`. -/
def md5F (i b c d : Nat) : Nat × Nat :=
  if i < 16 then ((b &&& c) ||| ((0xFFFFFFFF ^^^ b) &&& d), i)
  else if i < 32 then ((d &&& b) ||| ((0xFFFFFFFF ^^^ d) &&& c), (5 * i + 1) % 16)
  else if i < 48 then (b ^^^ c ^^^ d, (3 * i + 5) % 16)
  else (c ^^^ (b ||| (0xFFFFFFFF ^^^ d)), (7 * i) % 16)

/-- Process one 64-byte chunk. -/
def md5Chunk (state : Nat × Nat × Nat × Nat) (chunk : List Nat) :
    Nat × Nat × Nat × Nat :=
  let (a0, b0, c0, d0) := state
  let (a, b, c, d) := (List.range 64).foldl (fun (st : Nat × Nat × Nat × Nat) i =>
    let (a, b, c, d) := st
    let (f, g) := md5F i b c d
    let f2 := (f + a + md5K.getD i 0 + leWord chunk g) % 4294967296
    (d, (b + rotl32 f2 (md5S.getD i 0)) % 4294967296, b, c)) (a0, b0, c0, d0)
  ((a0 + a) % 4294967296, (b0 + b) % 4294967296,
   (c0 + c) % 4294967296, (d0 + d) % 4294967296)

/-- Little-endian bytes of a 32-bit word. -/
def wordLEBytes (w : Nat) : List Nat :=
  [w % 256, w / 256 % 256, w / 65536 % 256, w / 16777216 % 256]

/-- Lowercase hex digit. -/
def hexDigitChar (n : Nat) : Char :=
  "0123456789abcdef".toList.getD n '0'

/-- Lowercase hex rendering of a byte list. -/
def bytesToHex (bs : List Nat) : String :=
  String.mk (bs.flatMap (fun b => [hexDigitChar (b / 16), hexDigitChar (b % 16)]))

/-- Full MD5: hex digest of a byte-list message. -/
def md5Hex (msg : List Nat) : String :=
  let padded := md5Pad msg
  let chunks := (List.range (padded.length / 64)).map
    (fun i => (padded.drop (64 * i)).take 64)
  let s := chunks.foldl md5Chunk (0x67452301, 0xefcdab89, 0x98badcfe, 0x10325476)
  bytesToHex (([s.1, s.2.1, s.2.2.1, s.2.2.2]).flatMap wordLEBytes)

/-- UTF-8 encoding of a string as a byte list (Node hashes strings as UTF-8). -/
def utf8Bytes (s : String) : List Nat :=
  s.data.flatMap (fun c =>
    let n := c.toNat
    if n < 0x80 then [n]
    else if n < 0x800 then
      [0xC0 ||| (n >>> 6), 0x80 ||| (n &&& 0x3F)]
    else if n < 0x10000 then
      [0xE0 ||| (n >>> 12), 0x80 ||| ((n >>> 6) &&& 0x3F), 0x80 ||| (n &&& 0x3F)]
    else
      [0xF0 ||| (n >>> 18), 0x80 ||| ((n >>> 12) &&& 0x3F),
       0x80 ||| ((n >>> 6) &&& 0x3F), 0x80 ||| (n &&& 0x3F)])

/-! ### Translation maps (sync-vehicles.js:53-137), as ordered association
lists in object-literal insertion order. -/

def fuelTypeMap : List (String × String) :=
  [("Benzin", "PETROL"), ("Diesel", "DIESEL"), ("Elektro", "ELECTRIC"),
   ("Hybrid", "HYBRID"), ("Hybrid (Benzin)", "HYBRID_PETROL"),
   ("Hybrid (Benzin/Elektro)", "HYBRID_PETROL"), ("Hybrid (Diesel)", "HYBRID_DIESEL"),
   ("Plug-in-Hybrid", "PLUGIN_HYBRID"), ("LPG", "LPG"), ("CNG", "CNG"),
   ("Erdgas", "CNG"), ("Wasserstoff", "HYDROGEN")]

def gearboxMap : List (String × String) :=
  [("Automatik", "AUTOMATIC"), ("Schaltgetriebe", "MANUAL"),
   ("Schaltung", "MANUAL"), ("Halbautomatik", "SEMI_AUTOMATIC")]

def bodyTypeMap : List (String × String) :=
  [("Limousine", "SEDAN"), ("Kombi", "WAGON"), ("SUV", "SUV"),
   ("Geländewagen", "SUV"), ("Coupé", "COUPE"), ("Coupe", "COUPE"),
   ("Sportwagen/Coupé", "SPORTS_COUPE"), ("Sportwagen", "SPORTS"),
   ("Cabrio", "CONVERTIBLE"), ("Cabriolet", "CONVERTIBLE"),
   ("Roadster", "ROADSTER"), ("Kleinwagen", "COMPACT"), ("Van", "VAN"),
   ("Van/Minibus", "MPV"), ("Pickup", "PICKUP"), ("Andere", "OTHER")]

def driveTypeMap : List (String × String) :=
  [("Verbrennungsmotor", "ICE"), ("Elektro", "ELECTRIC"),
   ("Elektroantrieb", "ELECTRIC"), ("Hybrid", "HYBRID"),
   ("Hybridantrieb", "HYBRID"), ("Plug-in-Hybrid", "PLUGIN_HYBRID")]

def climateMap : List (String × String) :=
  [("Klimaanlage", "AUTOMATIC"), ("Klimaautomatik", "AUTOMATIC"),
   ("2-Zonen-Klimaautomatik", "TWO_ZONE"), ("3-Zonen-Klimaautomatik", "THREE_ZONE"),
   ("4-Zonen-Klimaautomatik", "FOUR_ZONE"), ("Manuelle Klimaanlage", "MANUAL")]

def colorMap : List (String × String) :=
  [("Weiß", "WHITE"), ("Schwarz", "BLACK"), ("Silber", "SILVER"),
   ("Grau", "GRAY"), ("Rot", "RED"), ("Blau", "BLUE"), ("Grün", "GREEN"),
   ("Braun", "BROWN"), ("Beige", "BEIGE"), ("Gold", "GOLD"),
   ("Orange", "ORANGE"), ("Gelb", "YELLOW"), ("Violett", "PURPLE"),
   ("Bronze", "BRONZE"), ("Anthrazit", "ANTHRACITE")]

def interiorMaterialMap : List (String × String) :=
  [("Leder", "LEATHER"), ("Vollleder", "FULL_LEATHER"),
   ("Teilleder", "PARTIAL_LEATHER"), ("Stoff", "FABRIC"),
   ("Alcantara", "ALCANTARA"), ("Velours", "VELOUR")]

/-! ### Lexical normalizer -/

/-- Tiers (b) and (c) of the normalizer (sync-vehicles.js:171-179): first
entry whose key matches case-insensitively, else first entry whose key is a
case-insensitive substring of the value, else `null`.  The identical wording
appears in spec §4.1. -/
def normalizeTiersBC (v : String) (m : List (String × String)) :
    Option String :=
  match m.find? (fun kv => jsToLower kv.1 == jsToLower v) with
  | some kv => some kv.2
  | none =>
    match m.find? (fun kv => jsIncludes (jsToLower v) (jsToLower kv.1)) with
    | some kv => some kv.2
    | none => none

/-- `normalizeValue` (sync-vehicles.js:167-181) restricted to inputs that are
not `Object.prototype` member names — the only way the pipeline uses it.
Tier (a) is JS `if (map[value]) return map[value]`: it only returns when the
looked-up value is truthy (a nonempty own entry), otherwise control falls
through to the later tiers.  `normalizeValueJs` below is the unrestricted
model including the prototype chain, and `normalizeValue_agrees_with_js`
proves the two agree off `protoKeys`. -/
def normalizeValue (value : Option String) (m : List (String × String)) :
    Option String :=
  match value with
  | none => none
  | some v =>
    if v = "" then none
    else
      match m.find? (fun kv => kv.1 == v) with
      | some kv => if kv.2 = "" then normalizeTiersBC v m else some kv.2
      | none => normalizeTiersBC v m

/-- The normalizer exactly as spec §4.1 words it: (a) exact key match wins
outright (no truthiness caveat); else tiers (b) and (c); `null`/empty input
and no match give `null`. -/
def normalizeValueSpec (value : Option String) (m : List (String × String)) :
    Option String :=
  match value with
  | none => none
  | some v =>
    if v = "" then none
    else
      match m.find? (fun kv => kv.1 == v) with
      | some kv => some kv.2
      | none => normalizeTiersBC v m

/-- The own-property names of `Object.prototype`: a property read
`map[value]` on a plain object literal that misses every own key still finds
these inherited members, each of them truthy (a function, or the prototype
object itself for `__proto__`). -/
def protoKeys : List String :=
  ["constructor", "hasOwnProperty", "isPrototypeOf", "propertyIsEnumerable",
   "toLocaleString", "toString", "valueOf", "__defineGetter__",
   "__defineSetter__", "__lookupGetter__", "__lookupSetter__", "__proto__"]

/-- A value the JS expression `map[value]` (and hence `normalizeValue`) can
produce: a table string, an inherited `Object.prototype` member (truthy and
not a string), or `null`/`undefined` (both falsy, conflated here). -/
inductive JsValue
  | str (s : String)
  | protoFn (name : String)
  | null
  deriving Repr, DecidableEq

/-- JS truthiness of such a value: `""`, `null` and `undefined` are falsy,
everything else here is truthy. -/
def JsValue.truthy : JsValue → Bool
  | .str s => s ≠ ""
  | .protoFn _ => true
  | .null => false

/-- JS property read `map[key]` on a plain object literal: own entry first,
then the `Object.prototype` chain, else `undefined`. -/
def jsObjectGet (m : List (String × String)) (key : String) : JsValue :=
  match m.find? (fun kv => kv.1 == key) with
  | some kv => .str kv.2
  | none => if protoKeys.contains key then .protoFn key else .null

/-- View an optional table string as a JS value. -/
def jsOfOption : Option String → JsValue
  | none => .null
  | some s => .str s

/-- `normalizeValue` (sync-vehicles.js:167-181) with full JS object
semantics: `if (map[value]) return map[value]` returns whatever truthy value
the property read yields — an own table entry or an inherited
`Object.prototype` member — and otherwise control falls to tiers (b)/(c)
over `Object.entries(map)`, which enumerates own entries only. -/
def normalizeValueJs (value : Option String) (m : List (String × String)) :
    JsValue :=
  match value with
  | none => .null
  | some v =>
    if v = "" then .null
    else
      if (jsObjectGet m v).truthy then jsObjectGet m v
      else jsOfOption (normalizeTiersBC v m)

/-! ### Field parsers -/

/-- Match of the regex `/\s*metallic\s*/i` starting at the head of `cs`:
returns the number of characters consumed (leading whitespace, the 8 letters,
trailing whitespace). -/
def matchMetallicAt (cs : List Char) : Option Nat :=
  let ws := cs.takeWhile Char.isWhitespace
  let after := cs.drop ws.length
  if "metallic".toList.isPrefixOf (after.map Char.toLower) then
    let rest := after.drop 8
    some (ws.length + 8 + (rest.takeWhile Char.isWhitespace).length)
  else none

/-- JS `replace(/\s*metallic\s*/i, '')`: remove the leftmost occurrence only. -/
def removeMetallic : List Char → List Char
  | [] => []
  | c :: rest =>
    match matchMetallicAt (c :: rest) with
    | some n => (c :: rest).drop n
    | none => c :: removeMetallic rest

/-- `parseColor` (sync-vehicles.js:183-191): `(color, metallic)`. -/
def parseColor (colorString : Option String) : Option String × Bool :=
  match colorString with
  | none => (none, false)
  | some s =>
    if s = "" then (none, false)
    else
      let metallic := jsIncludes (jsToLower s) "metallic"
      let colorOnly := jsTrim (String.mk (removeMetallic s.toList))
      (normalizeValue (some colorOnly) colorMap, metallic)

/-- `parseInterior` (sync-vehicles.js:193-205): `(material, color)`,
first comma-separated token matching each table wins independently. -/
def parseInterior (interiorString : Option String) :
    Option String × Option String :=
  match interiorString with
  | none => (none, none)
  | some s =>
    if s = "" then (none, none)
    else
      let parts := (jsSplit s ',').map jsTrim
      parts.foldl (fun (acc : Option String × Option String) part =>
        (if acc.1.isNone then normalizeValue (some part) interiorMaterialMap else acc.1,
         if acc.2.isNone then normalizeValue (some part) colorMap else acc.2))
        (none, none)

/-- Decimal digits to a natural number. -/
def digitsToNat (ds : List Char) : Nat :=
  ds.foldl (fun a c => a * 10 + (c.toNat - 48)) 0

/-- `parseNumeric` (sync-vehicles.js:207-212): strip every non-digit, then
parse base 10; empty residual is `NaN`, hence `null`. -/
def parseNumeric (value : Option String) : Option Nat :=
  match value with
  | none => none
  | some v =>
    if v = "" then none
    else
      let ds := v.toList.filter Char.isDigit
      if ds.isEmpty then none else some (digitsToNat ds)

/-- Leftmost match of `/(\d+)\s*<unit>/` in a char list: the captured digit
run, scanning match-start positions left to right. -/
def matchNumberUnit (unit : List Char) : List Char → Option (List Char)
  | [] => none
  | c :: rest =>
    if c.isDigit then
      let run := (c :: rest).takeWhile Char.isDigit
      let afterWs := ((c :: rest).dropWhile Char.isDigit).dropWhile Char.isWhitespace
      if unit.isPrefixOf afterWs then some run
      else matchNumberUnit unit rest
    else matchNumberUnit unit rest

/-- `parsePower` (sync-vehicles.js:214-222): `(kw, ps)` via `/(\d+)\s*kW/` and
`/(\d+)\s*PS/`. -/
def parsePower (powerString : Option String) : Option Nat × Option Nat :=
  match powerString with
  | none => (none, none)
  | some s =>
    if s = "" then (none, none)
    else
      ((matchNumberUnit "kW".toList s.toList).map digitsToNat,
       (matchNumberUnit "PS".toList s.toList).map digitsToNat)

/-- Match of `/(\d{2})\/(\d{4})/` at the head of `cs`: `(MM, YYYY)`. -/
def matchRegAt (cs : List Char) : Option (List Char × List Char) :=
  match cs with
  | m1 :: m2 :: sl :: y1 :: y2 :: y3 :: y4 :: _ =>
    if m1.isDigit && m2.isDigit && sl = '/' &&
        y1.isDigit && y2.isDigit && y3.isDigit && y4.isDigit then
      some ([m1, m2], [y1, y2, y3, y4])
    else none
  | _ => none

/-- Leftmost occurrence of the registration pattern. -/
def findRegMatch : List Char → Option (List Char × List Char)
  | [] => none
  | c :: rest =>
    match matchRegAt (c :: rest) with
    | some r => some r
    | none => findRegMatch rest

/-- `parseRegistration` (sync-vehicles.js:224-232). -/
def parseRegistration (regString : Option String) : Option String :=
  match regString with
  | none => none
  | some s =>
    if s = "" then none
    else
      match findRegMatch s.toList with
      | some (mm, yyyy) => some (String.mk (yyyy ++ mm))
      | none => some s

/-- The fixed ordered manufacturer list (sync-vehicles.js:237-242). -/
def knownMakes : List String :=
  ["Mercedes-Benz", "BMW", "Audi", "Volkswagen", "Porsche", "Ford", "Opel",
   "Toyota", "Honda", "Mazda", "Nissan", "Hyundai", "Kia", "Volvo", "Skoda",
   "Seat", "Renault", "Peugeot", "Citroën", "Fiat", "Alfa Romeo", "Jaguar",
   "Land Rover", "Range Rover", "Mini", "Tesla", "Lexus", "Infiniti"]

/-- `parseMakeModel` (sync-vehicles.js:234-257): `(make, model)`. -/
def parseMakeModel (title : Option String) : Option String × Option String :=
  match title with
  | none => (none, none)
  | some t =>
    if t = "" then (none, none)
    else
      match knownMakes.find? (fun mk => jsStartsWith t mk) with
      | some mk => (some mk, some (jsTrim (String.mk (t.toList.drop mk.toList.length))))
      | none =>
        let parts := jsSplit t ' '
        (some (parts.headD ""), some (" ".intercalate parts.tail))

/-! ### Identity engine -/

/-- The string fed to MD5 by `generateFingerprint` (sync-vehicles.js:154). -/
def fingerprintInput (make model : Option String) (mileage : Option Nat)
    (firstRegistration : Option String) : String :=
  jsStrOrEmpty make ++ "|" ++ jsStrOrEmpty model ++ "|" ++
    jsNumOrEmpty mileage ++ "|" ++ jsStrOrEmpty firstRegistration

/-- `generateFingerprint` (sync-vehicles.js:153-156). -/
def generateFingerprint (make model : Option String) (mileage : Option Nat)
    (firstRegistration : Option String) : String :=
  md5Hex (utf8Bytes (fingerprintInput make model mileage firstRegistration))

/-- A lowercase letter or digit: the characters `[a-z0-9]` kept by the slug. -/
def isSlugChar (c : Char) : Bool :=
  ('a' ≤ c && c ≤ 'z') || ('0' ≤ c && c ≤ '9')

/-- JS `replace(/[^a-z0-9]+/g, '-')`: each maximal run of other characters
becomes one hyphen.  The flag records whether we are inside such a run. -/
def slugCollapse : Bool → List Char → List Char
  | _, [] => []
  | inRun, c :: rest =>
    if isSlugChar c then c :: slugCollapse false rest
    else if inRun then slugCollapse true rest
    else '-' :: slugCollapse true rest

/-- `generateSlug` (sync-vehicles.js:158-165); the random 8-hex-char suffix
produced by `crypto.randomBytes(4)` is passed in as `suffix`. -/
def generateSlug (make model : Option String) (year : Option String)
    (suffix : String) : String :=
  let base0 := jsToLower (jsShow make ++ "-" ++ jsShow model ++ "-" ++
    (match year with
     | none => "unknown"
     | some y => if y = "" then "unknown" else y))
  let collapsed := slugCollapse false base0.toList
  let noLead := match collapsed with
    | '-' :: t => t
    | l => l
  let base := if noLead.getLast? = some '-' then noLead.dropLast else noLead
  String.mk base ++ "-" ++ suffix

/-! ### Run data model -/

/-- The raw field bag extracted from one detail page by the in-page
`page.evaluate` of `scrapeListingDetails` (sync-vehicles.js:414-508).
`findValue` yields `''` for an absent `dt`/`dd` pair, so every scalar field is
a plain string with `""` meaning "absent". -/
structure RawData where
  title : String
  price : String
  mileage : String
  power : String
  fuelType : String
  transmission : String
  firstRegistration : String
  owners : String
  condition : String
  bodyType : String
  series : String
  variant : String
  hubraum : String
  driveType : String
  seats : String
  doors : String
  emissionClass : String
  emissionSticker : String
  hu : String
  climate : String
  parkingAssist : String
  airbags : String
  colorManufacturer : String
  color : String
  interior : String
  weight : String
  cylinders : String
  tankSize : String
  subtitle : String
  features : List String
  images : List String
  deriving Repr, DecidableEq

/-- A raw page with every field absent. -/
def emptyRaw : RawData :=
  ⟨"", "", "", "", "", "", "", "", "", "", "", "", "", "", "", "", "", "", "",
   "", "", "", "", "", "", "", "", "", "", [], []⟩

/-- The canonical record returned by `scrapeListingDetails`
(sync-vehicles.js:551-598).  The `synced_at` wall-clock timestamp is omitted
from the model. -/
structure Listing where
  slug : String
  fingerprint : String
  make : Option String
  model : Option String
  model_description : Option String
  subtitle : Option String
  series : Option String
  variant : Option String
  price : Option Nat
  currency : String
  price_type : String
  mileage : Option Nat
  first_registration : Option String
  fuel : Option String
  gearbox : Option String
  power_kw : Option Nat
  power_ps : Option Nat
  cubic_capacity : Option Nat
  cylinders : Option Nat
  body_type : Option String
  drive_type : Option String
  num_doors : Option Nat
  num_seats : Option Nat
  exterior_color : Option String
  exterior_color_manufacturer : Option String
  metallic : Bool
  interior_color : Option String
  interior_material : Option String
  climate : Option String
  airbags : Option String
  emission_class : Option String
  emission_sticker : Option String
  hu_valid_until : Option String
  num_previous_owners : Option Nat
  accident_damaged : Option Bool
  condition : String
  tank_size : Option Nat
  weight : Option Nat
  features : List String
  images : List String
  source_url : String
  source : String
  sync_source : String
  published : Bool
  featured : Bool
  deriving Repr, DecidableEq

/-- One entry of `syncLog.errors`: `{type, context, message}`. -/
structure ErrorEntry where
  type : String
  context : String
  message : String
  deriving Repr, DecidableEq

/-- The process-wide `syncLog` accumulator (sync-vehicles.js:38-47), minus the
wall-clock timestamps and the dealer roster. -/
structure SyncLog where
  listingsFound : Nat
  listingsNew : Nat
  listingsSkipped : Nat
  imagesUploaded : Nat
  errors : List ErrorEntry
  deriving Repr, DecidableEq

/-- A fresh log, all counters zero. -/
def emptyLog : SyncLog := ⟨0, 0, 0, 0, []⟩

/-- JS `s || null`. -/
def strOrNull (s : String) : Option String :=
  if s = "" then none else some s

/-- Outcome oracle for one `processAndUploadImage` call: `.error` models a
thrown fetch/screenshot/encode error, `.ok none` models `uploadImage`
returning `null` after an upload failure, `.ok (some url)` a successful
upload returning the public `url`. -/
abbrev ImgProc := Nat → String → Except String (Option String)

/-! ### Image loop -/

/-- One iteration of the image loop (sync-vehicles.js:537-548) over the state
`(imageUrls, imagesUploaded increment, invocation count)`: a thrown error is
caught (`log` only) and the loop continues; a falsy uploaded url is neither
pushed nor counted. -/
def imageStep (f : ImgProc) (images : List String)
    (acc : List String × Nat × Nat) (i : Nat) : List String × Nat × Nat :=
  match f i (images.getD i "") with
  | .error _ => (acc.1, acc.2.1, acc.2.2 + 1)
  | .ok none => (acc.1, acc.2.1, acc.2.2 + 1)
  | .ok (some u) =>
    if u = "" then (acc.1, acc.2.1, acc.2.2 + 1)
    else (acc.1 ++ [u], acc.2.1 + 1, acc.2.2 + 1)

/-- The image loop of `scrapeListingDetails` (sync-vehicles.js:533-548):
`maxImages = Math.min(rawData.images.length, 10)`, then one `imageStep` per
index. -/
def imageLoop (f : ImgProc) (images : List String) : List String × Nat × Nat :=
  (List.range (min images.length 10)).foldl (imageStep f images) ([], 0, 0)

/-! ### scrapeListingDetails -/

/-- The fingerprint computed for a raw page (sync-vehicles.js:510-518). -/
def rawFingerprint (raw : RawData) : String :=
  generateFingerprint (parseMakeModel (some raw.title)).1
    (parseMakeModel (some raw.title)).2
    (parseNumeric (some raw.mileage))
    (parseRegistration (some raw.firstRegistration))

/-- Listing assembly for a page that passed the dedup check
(sync-vehicles.js:524-598): `(listing, imagesUploaded increment,
image-pipeline invocations)`. -/
def buildListing (raw : RawData) (url : String) (f : ImgProc)
    (suffix : String) : Listing × Nat × Nat :=
  let make := (parseMakeModel (some raw.title)).1
  let model := (parseMakeModel (some raw.title)).2
  let firstRegistration := parseRegistration (some raw.firstRegistration)
  let mileage := parseNumeric (some raw.mileage)
  let fingerprint := generateFingerprint make model mileage firstRegistration
  let color := (parseColor (some raw.color)).1
  let metallic := (parseColor (some raw.color)).2
  let interiorMaterial := (parseInterior (some raw.interior)).1
  let interiorColor := (parseInterior (some raw.interior)).2
  let powerKw := (parsePower (some raw.power)).1
  let powerPs := (parsePower (some raw.power)).2
  let year := match firstRegistration with
    | none => none
    | some r => if r = "" then none else some (String.mk (r.toList.take 4))
  let slug := generateSlug make model year suffix
  let imageUrls := (imageLoop f raw.images).1
  let uploaded := (imageLoop f raw.images).2.1
  let attempts := (imageLoop f raw.images).2.2
  ({ slug := slug
     fingerprint := fingerprint
     make := make
     model := model
     model_description := strOrNull raw.subtitle
     subtitle := strOrNull raw.subtitle
     series := strOrNull raw.series
     variant := strOrNull raw.variant
     price := parseNumeric (some raw.price)
     currency := "EUR"
     price_type := "FIXED"
     mileage := mileage
     first_registration := firstRegistration
     fuel := normalizeValue (some raw.fuelType) fuelTypeMap
     gearbox := normalizeValue (some raw.transmission) gearboxMap
     power_kw := powerKw
     power_ps := powerPs
     cubic_capacity := parseNumeric (some raw.hubraum)
     cylinders := parseNumeric (some raw.cylinders)
     body_type := normalizeValue (some raw.bodyType) bodyTypeMap
     drive_type := normalizeValue (some raw.driveType) driveTypeMap
     num_doors := parseNumeric (some raw.doors)
     num_seats := parseNumeric (some raw.seats)
     exterior_color := color
     exterior_color_manufacturer := strOrNull raw.colorManufacturer
     metallic := metallic
     interior_color := interiorColor
     interior_material := interiorMaterial
     climate := normalizeValue (some raw.climate) climateMap
     airbags := strOrNull raw.airbags
     emission_class := strOrNull raw.emissionClass
     emission_sticker := strOrNull raw.emissionSticker
     hu_valid_until := strOrNull raw.hu
     num_previous_owners := parseNumeric (some raw.owners)
     accident_damaged :=
       if jsIncludes (jsToLower raw.condition) "unfallfrei" then some false else none
     condition :=
       if jsIncludes (jsToLower raw.condition) "neuwagen" then "NEW" else "USED"
     tank_size := parseNumeric (some raw.tankSize)
     weight := parseNumeric (some raw.weight)
     features := raw.features
     images := imageUrls
     source_url := url
     source := "github_actions"
     sync_source := "github_actions"
     published := true
     featured := false }, uploaded, attempts)

/-- Result of `scrapeListingDetails`: the early-exit skip marker or a full
listing (sync-vehicles.js:520-522, 551). -/
inductive ScrapeResult
  | skipped (title : String)
  | listing (l : Listing)
  deriving Repr, DecidableEq

/-- `scrapeListingDetails` (sync-vehicles.js:399-599) after page extraction:
dedup check, then parsing, image loop and assembly.  Returns the result, the
updated run log, and the number of image-pipeline invocations performed. -/
def scrapeListingDetails (raw : RawData) (url : String)
    (existingFingerprints : List String) (f : ImgProc) (suffix : String)
    (log : SyncLog) : ScrapeResult × SyncLog × Nat :=
  if existingFingerprints.contains (rawFingerprint raw) then
    (.skipped raw.title, log, 0)
  else
    (.listing (buildListing raw url f suffix).1,
     { log with imagesUploaded :=
        log.imagesUploaded + (buildListing raw url f suffix).2.1 },
     (buildListing raw url f suffix).2.2)

/-! ### Dealer and run loops -/

/-- One candidate URL together with the outcome of fetching and extracting its
page (`.error` = a thrown navigation/extraction error, caught by the
per-candidate `try/catch`), and the randomness oracle for its slug suffix. -/
structure Candidate where
  url : String
  fetch : Except String RawData
  suffix : String

/-- The body of `scrapeDealer`'s per-candidate loop (sync-vehicles.js:365-387):
a thrown fetch/extraction error is caught and pushed to `syncLog.errors`; a
skipped result bumps `syncLog.listingsSkipped`; otherwise the listing is
appended. -/
def dealerStep (existingFingerprints : List String) (f : ImgProc)
    (acc : List Listing × SyncLog) (c : Candidate) : List Listing × SyncLog :=
  match c.fetch with
  | .error msg =>
    (acc.1, { acc.2 with errors := acc.2.errors ++ [⟨"scrape", c.url, msg⟩] })
  | .ok raw =>
    let r := scrapeListingDetails raw c.url existingFingerprints f c.suffix acc.2
    match r.1 with
    | .skipped _ =>
      (acc.1, { r.2.1 with listingsSkipped := r.2.1.listingsSkipped + 1 })
    | .listing l => (acc.1 ++ [l], r.2.1)

/-- The per-candidate loop of `scrapeDealer` (sync-vehicles.js:361-387),
starting from the candidate URLs already extracted from the search page:
slices to the per-dealer cap (`listingUrls.slice(0, maxListingsPerDealer)`),
then scrapes each candidate in order. -/
def scrapeDealer (maxListingsPerDealer : Nat) (candidates : List Candidate)
    (existingFingerprints : List String) (f : ImgProc) (log : SyncLog) :
    List Listing × SyncLog :=
  (candidates.take maxListingsPerDealer).foldl
    (dealerStep existingFingerprints f) ([], log)

/-- The dealer loop of `main` (sync-vehicles.js:690-707): accumulate each
dealer's listings, bump `listingsFound`, and once the global cap is reached
truncate to it and stop iterating. -/
def mainRunGo (maxTotal maxPer : Nat) (existing : List String) (f : ImgProc) :
    List (List Candidate) → List Listing → SyncLog → List Listing × SyncLog
  | [], acc, lg => (acc, lg)
  | d :: rest, acc, lg =>
    let r := scrapeDealer maxPer d existing f lg
    let lg' := { r.2 with listingsFound := r.2.listingsFound + r.1.length }
    if maxTotal ≤ (acc ++ r.1).length then ((acc ++ r.1).take maxTotal, lg')
    else mainRunGo maxTotal maxPer existing f rest (acc ++ r.1) lg'

/-- `main`'s scraping phase (sync-vehicles.js:686-707): the listing list it
hands to the insertion loop, and the final log. -/
def mainRun (maxTotal maxPer : Nat) (dealers : List (List Candidate))
    (existing : List String) (f : ImgProc) (log : SyncLog) :
    List Listing × SyncLog :=
  mainRunGo maxTotal maxPer existing f dealers [] log

/-- The listing (if any) one candidate contributes, judged only against the
preloaded fingerprint set — the per-candidate behaviour of `scrapeDealer`. -/
def candListing (existing : List String) (f : ImgProc) (c : Candidate) :
    Option Listing :=
  match c.fetch with
  | .error _ => none
  | .ok raw =>
    if existing.contains (rawFingerprint raw) then none
    else some (buildListing raw c.url f c.suffix).1

/-- The listings one dealer contributes, as a function of the preloaded
fingerprint set only. -/
def dealerListings (maxPer : Nat) (existing : List String) (f : ImgProc)
    (d : List Candidate) : List Listing :=
  (d.take maxPer).filterMap (candListing existing f)

/-! ## Loop characterization lemmas -/

/-- The url contributed by image index `i`, when the pipeline call for it
succeeds with a truthy public url. -/
def imgSuccess (f : ImgProc) (images : List String) (i : Nat) : Option String :=
  match f i (images.getD i "") with
  | .ok (some u) => if u = "" then none else some u
  | .ok none => none
  | .error _ => none

theorem foldl_imageStep (f : ImgProc) (images : List String) :
    ∀ (l : List Nat) (acc : List String × Nat × Nat),
      l.foldl (imageStep f images) acc =
        (acc.1 ++ l.filterMap (imgSuccess f images),
         acc.2.1 + (l.filterMap (imgSuccess f images)).length,
         acc.2.2 + l.length)
  | [], acc => by simp
  | i :: t, acc => by
    rw [List.foldl_cons, foldl_imageStep f images t]
    rcases h : f i (images.getD i "") with msg | u
    · simp only [imageStep, h, List.filterMap_cons, imgSuccess, List.length_cons]
      refine Prod.ext rfl (Prod.ext ?_ ?_) <;> (simp; try omega)
    · rcases u with _ | u
      · simp only [imageStep, h, List.filterMap_cons, imgSuccess, List.length_cons]
        refine Prod.ext rfl (Prod.ext ?_ ?_) <;> (simp; try omega)
      · by_cases hu : u = ""
        · simp only [imageStep, h, hu, List.filterMap_cons, imgSuccess,
            List.length_cons, if_true]
          refine Prod.ext rfl (Prod.ext ?_ ?_) <;> (simp; try omega)
        · simp only [imageStep, h, hu, List.filterMap_cons, imgSuccess,
            List.length_cons, if_false]
          refine Prod.ext ?_ (Prod.ext ?_ ?_) <;> (simp [hu]; try omega)

/-- The image loop delivers exactly the successful uploads of the first
`min(n, 10)` source images, in source order, with one pipeline invocation per
retained image. -/
theorem imageLoop_spec (f : ImgProc) (images : List String) :
    imageLoop f images =
      ((List.range (min images.length 10)).filterMap (imgSuccess f images),
       ((List.range (min images.length 10)).filterMap (imgSuccess f images)).length,
       min images.length 10) := by
  unfold imageLoop
  rw [foldl_imageStep]
  simp

theorem foldl_dealerStep (existing : List String) (f : ImgProc) :
    ∀ (cs : List Candidate) (acc : List Listing × SyncLog),
      (cs.foldl (dealerStep existing f) acc).1 =
        acc.1 ++ cs.filterMap (candListing existing f)
  | [], acc => by simp
  | c :: t, acc => by
    rw [List.foldl_cons, foldl_dealerStep existing f t]
    rcases hf : c.fetch with msg | raw
    · simp [dealerStep, candListing, hf]
    · by_cases hm : rawFingerprint raw ∈ existing <;>
        simp [dealerStep, candListing, hf, scrapeListingDetails, hm]

/-- The listings a dealer run produces are exactly the per-candidate results
over the sliced candidate list, each judged only against the preloaded
fingerprint set. -/
theorem scrapeDealer_listings (m : Nat) (cs : List Candidate)
    (existing : List String) (f : ImgProc) (log : SyncLog) :
    (scrapeDealer m cs existing f log).1 = dealerListings m existing f cs := by
  unfold scrapeDealer dealerListings
  rw [foldl_dealerStep]
  simp

theorem mainRunGo_listings (maxTotal maxPer : Nat) (existing : List String)
    (f : ImgProc) :
    ∀ (dealers : List (List Candidate)) (acc : List Listing) (lg : SyncLog),
      acc.length ≤ maxTotal →
      (mainRunGo maxTotal maxPer existing f dealers acc lg).1 =
        (acc ++ (dealers.map (dealerListings maxPer existing f)).flatten).take
          maxTotal
  | [], acc, lg, h => by
    simp [mainRunGo, List.take_of_length_le h]
  | d :: rest, acc, lg, h => by
    by_cases hcap : maxTotal ≤ (acc ++ (scrapeDealer maxPer d existing f lg).1).length
    · simp only [mainRunGo, hcap, if_true]
      rw [scrapeDealer_listings] at hcap ⊢
      rw [List.map_cons, List.flatten_cons, ← List.append_assoc,
        List.take_append_of_le_length hcap]
    · simp only [mainRunGo, hcap, if_false]
      rw [mainRunGo_listings maxTotal maxPer existing f rest _ _
        (le_of_lt (lt_of_not_le hcap))]
      rw [scrapeDealer_listings, List.map_cons, List.flatten_cons,
        ← List.append_assoc]

/-- `main`'s scraping phase hands the insertion loop exactly the
concatenation of per-dealer results, truncated to the global cap. -/
theorem mainRun_listings (maxTotal maxPer : Nat)
    (dealers : List (List Candidate)) (existing : List String) (f : ImgProc)
    (log : SyncLog) :
    (mainRun maxTotal maxPer dealers existing f log).1 =
      ((dealers.map (dealerListings maxPer existing f)).flatten).take maxTotal := by
  unfold mainRun
  rw [mainRunGo_listings maxTotal maxPer existing f dealers [] log (by simp)]
  simp

/-- An image-pipeline oracle whose uploads all fail softly (`uploadImage`
returning `null`); used to instantiate concrete witnesses. -/
def noopProc : ImgProc := fun _ _ => Except.ok none

theorem findRegMatch_eq_none (cs : List Char)
    (h : ∀ i, matchRegAt (cs.drop i) = none) : findRegMatch cs = none := by
  induction cs with
  | nil => rfl
  | cons c t ih =>
    have h0 := h 0
    rw [List.drop_zero] at h0
    unfold findRegMatch
    rw [h0]
    exact ih (fun i => by have hi := h (i + 1); rwa [List.drop_succ_cons] at hi)

theorem findRegMatch_least (cs : List Char) (i : Nat)
    (r : List Char × List Char) (hmatch : matchRegAt (cs.drop i) = some r)
    (hleast : ∀ j, j < i → matchRegAt (cs.drop j) = none) :
    findRegMatch cs = some r := by
  induction cs generalizing i with
  | nil =>
    rw [List.drop_nil] at hmatch
    exact absurd hmatch (by simp [matchRegAt])
  | cons c t ih =>
    cases i with
    | zero =>
      rw [List.drop_zero] at hmatch
      unfold findRegMatch
      rw [hmatch]
    | succ n =>
      have h0 := hleast 0 (Nat.succ_pos n)
      rw [List.drop_zero] at h0
      unfold findRegMatch
      rw [h0]
      refine ih n ?_ ?_
      · rwa [List.drop_succ_cons] at hmatch
      · intro j hj
        have hjj := hleast (j + 1) (Nat.succ_lt_succ hj)
        rwa [List.drop_succ_cons] at hjj

/-- Off the `Object.prototype` member names, the pipeline's option-valued
`normalizeValue` is exactly the full JS semantics of the function. -/
theorem normalizeValue_agrees_with_js (v : String)
    (m : List (String × String)) (hp : protoKeys.contains v = false) :
    normalizeValueJs (some v) m = jsOfOption (normalizeValue (some v) m) := by
  simp only [normalizeValueJs, normalizeValue]
  by_cases hv : v = ""
  · simp [hv, jsOfOption]
  · rw [if_neg hv, if_neg hv]
    unfold jsObjectGet
    rcases hfind : List.find? (fun kv => kv.1 == v) m with _ | kv
    · rw [hfind]
      have hp2 : v ∉ protoKeys := by simpa using hp
      simp [hp2, JsValue.truthy]
    · rw [hfind]
      by_cases hkv : kv.2 = "" <;> simp [JsValue.truthy, hkv, jsOfOption]

/-- For tables with no empty-string values, the code's normalizer coincides
with the spec §4.1 three-tier description. -/
theorem normalizeValue_eq_spec (value : Option String)
    (m : List (String × String)) (h : ∀ kv ∈ m, kv.2 ≠ "") :
    normalizeValue value m = normalizeValueSpec value m := by
  rcases value with _ | v
  · rfl
  · by_cases hv : v = ""
    · simp [normalizeValue, normalizeValueSpec, hv]
    · simp only [normalizeValue, normalizeValueSpec]
      rw [if_neg hv, if_neg hv]
      rcases hfind : List.find? (fun kv => kv.1 == v) m with _ | kv
      · rw [hfind]
      · have hkv : kv.2 ≠ "" := h kv (List.mem_of_find?_eq_some hfind)
        simp [hfind, hkv]

/-! ## Claims -/

/-- C1: `generateFingerprint` is a deterministic pure function of exactly
(make, model, mileage, first_registration): repeated invocations on equal
inputs agree; two raw pages whose four parsed identity fields agree collide
regardless of every other field; an assembled listing's fingerprint is a
function of precisely its own four identity fields; and the concrete example
`fingerprint("BMW","320d",85000,"202103")` equals itself recomputed and
differs from the same inputs with mileage 85001. -/
theorem C1_fingerprint_pure_function_of_four_fields :
    (∀ make model mileage reg,
      generateFingerprint make model mileage reg =
        generateFingerprint make model mileage reg)
    ∧ (∀ raw1 raw2 : RawData,
        parseMakeModel (some raw1.title) = parseMakeModel (some raw2.title) →
        parseNumeric (some raw1.mileage) = parseNumeric (some raw2.mileage) →
        parseRegistration (some raw1.firstRegistration) =
          parseRegistration (some raw2.firstRegistration) →
        rawFingerprint raw1 = rawFingerprint raw2)
    ∧ (∀ raw url f suffix,
        ((buildListing raw url f suffix).1).fingerprint =
          generateFingerprint ((buildListing raw url f suffix).1).make
            ((buildListing raw url f suffix).1).model
            ((buildListing raw url f suffix).1).mileage
            ((buildListing raw url f suffix).1).first_registration)
    ∧ generateFingerprint (some "BMW") (some "320d") (some 85000)
        (some "202103") =
      generateFingerprint (some "BMW") (some "320d") (some 85000)
        (some "202103")
    ∧ generateFingerprint (some "BMW") (some "320d") (some 85000)
        (some "202103") ≠
      generateFingerprint (some "BMW") (some "320d") (some 85001)
        (some "202103") := by
  refine ⟨fun _ _ _ _ => rfl, ?_, ?_, rfl, by decide⟩
  · intro raw1 raw2 h1 h2 h3
    unfold rawFingerprint
    rw [h1, h2, h3]
  · intro raw url f suffix
    simp [buildListing]

/-- Two raw pages differing in mileage formatting, condition, colour and
image list, but with equal parsed identity fields. -/
def c1RawA : RawData :=
  { emptyRaw with
    title := "BMW 320d"
    mileage := "85.000 km"
    firstRegistration := "03/2021"
    condition := "Neuwagen" }

def c1RawB : RawData :=
  { emptyRaw with
    title := "BMW 320d"
    mileage := "85000"
    firstRegistration := "03/2021"
    color := "Rot"
    images := ["x"] }

/-- Witness for C1 at concrete inputs. -/
theorem C1_witness : rawFingerprint c1RawA = rawFingerprint c1RawB :=
  C1_fingerprint_pure_function_of_four_fields.2.1 c1RawA c1RawB
    (by decide) (by decide) (by decide)

/-- C10: every falsy argument of `generateFingerprint` is coalesced to the
empty string before hashing, so mileage 0 hashes identically to absent
mileage, and a null or empty string in any string position hashes identically
to any other falsy value in that position. -/
theorem C10_falsy_coalescing :
    (∀ make model reg,
      generateFingerprint make model (some 0) reg =
        generateFingerprint make model none reg)
    ∧ (∀ model mileage reg,
        generateFingerprint (some "") model mileage reg =
          generateFingerprint none model mileage reg)
    ∧ (∀ make mileage reg,
        generateFingerprint make (some "") mileage reg =
          generateFingerprint make none mileage reg)
    ∧ (∀ make model mileage,
        generateFingerprint make model mileage (some "") =
          generateFingerprint make model mileage none) := by
  refine ⟨?_, ?_, ?_, ?_⟩ <;> intro a b c <;>
    simp [generateFingerprint, fingerprintInput, jsStrOrEmpty, jsNumOrEmpty]

/-- C2 counterexample: with the table `{"a":"x","A":""}` and input `"A"`, the
exact tier holds key `"A"` but its value is falsy, so the code falls through
to the case-insensitive tier and returns `"x"`, while the claimed
first-match-wins exact tier would return `""`. -/
theorem C2_counterexample :
    normalizeValue (some "A") [("a", "x"), ("A", "")] = some "x"
    ∧ normalizeValueSpec (some "A") [("a", "x"), ("A", "")] = some ""
    ∧ normalizeValue (some "A") [("a", "x"), ("A", "")] ≠
        normalizeValueSpec (some "A") [("a", "x"), ("A", "")] := by
  decide

/-- C2 (amended): for every value that is not an `Object.prototype` member
name and every table whose values are all nonempty — true of all seven tables
in the script — the normalizer (modelled with full JS object semantics)
resolves exactly per the claimed three tiers with first match winning;
null/empty input and no match give null; the claim's examples hold; and an
input naming an inherited prototype member with no own entry (such as
`"toString"`) returns that truthy non-string member instead of null. -/
theorem C2_amended_three_tier_resolution (v : String)
    (m : List (String × String)) (hm : ∀ kv ∈ m, kv.2 ≠ "")
    (hp : protoKeys.contains v = false) :
    normalizeValueJs (some v) m = jsOfOption (normalizeValueSpec (some v) m)
    ∧ (∀ m2 : List (String × String), normalizeValueJs none m2 = JsValue.null)
    ∧ (∀ m2 : List (String × String),
        normalizeValueJs (some "") m2 = JsValue.null)
    ∧ normalizeValueJs (some "benzin") [("Benzin", "PETROL")] =
        JsValue.str "PETROL"
    ∧ normalizeValueJs (some "Benzin Plus") [("Benzin", "PETROL")] =
        JsValue.str "PETROL"
    ∧ normalizeValueJs (some "Strom") [("Benzin", "PETROL")] = JsValue.null
    ∧ normalizeValueJs (some "toString") fuelTypeMap =
        JsValue.protoFn "toString"
    ∧ normalizeValueJs (some "toString") fuelTypeMap ≠ JsValue.null := by
  refine ⟨?_, fun m2 => rfl, fun m2 => by simp [normalizeValueJs],
    by decide, by decide, by decide, by decide, by decide⟩
  rw [normalizeValue_agrees_with_js v m hp,
    normalizeValue_eq_spec (some v) m hm]

/-- Witness for C2 at a concrete input and table. -/
theorem C2_witness :
    normalizeValueJs (some "benzin") fuelTypeMap =
      jsOfOption (normalizeValueSpec (some "benzin") fuelTypeMap) :=
  (C2_amended_three_tier_resolution "benzin" fuelTypeMap (by decide)
    (by decide)).1

/-- C6 counterexample: `""` is non-null input of unrecognized shape, so the
claim demands pass-through unchanged, but the code returns null; moreover
`"x03/2021"` is not itself of shape MM/YYYY yet is reformatted, because the
regex searches for the pattern anywhere in the text. -/
theorem C6_counterexample :
    parseRegistration (some "") = none
    ∧ parseRegistration (some "") ≠ some ""
    ∧ parseRegistration (some "x03/2021") = some "202103"
    ∧ parseRegistration (some "x03/2021") ≠ some "x03/2021" := by
  decide

/-- C6 (amended): for every nonempty input, the parser returns `YYYYMM` built
from the leftmost occurrence of the two-digit/slash/four-digit pattern when
the text contains one anywhere, and otherwise returns the raw input
unchanged; null and empty input return null; `"03/2021"` yields `"202103"`
and `"2021"` passes through. -/
theorem C6_amended_registration_reformat :
    (∀ s : String, s ≠ "" → (∀ i, matchRegAt (s.toList.drop i) = none) →
      parseRegistration (some s) = some s)
    ∧ (∀ s : String, s ≠ "" → ∀ i mm yyyy,
        matchRegAt (s.toList.drop i) = some (mm, yyyy) →
        (∀ j, j < i → matchRegAt (s.toList.drop j) = none) →
        parseRegistration (some s) = some (String.mk (yyyy ++ mm)))
    ∧ parseRegistration none = none
    ∧ parseRegistration (some "") = none
    ∧ parseRegistration (some "03/2021") = some "202103"
    ∧ parseRegistration (some "2021") = some "2021" := by
  refine ⟨?_, ?_, rfl, by decide, by decide, by decide⟩
  · intro s hs h
    simp only [parseRegistration]
    rw [if_neg hs, findRegMatch_eq_none s.toList h]
  · intro s hs i mm yyyy hmatch hleast
    simp only [parseRegistration]
    rw [if_neg hs, findRegMatch_least s.toList i (mm, yyyy) hmatch hleast]

/-- Witness for C6 at a concrete input with the pattern at position 0. -/
theorem C6_witness : parseRegistration (some "05/2019") = some "201905" := by
  have h := C6_amended_registration_reformat.2.1 "05/2019" (by decide) 0
    ['0', '5'] ['2', '0', '1', '9'] (by decide)
    (fun j hj => absurd hj (Nat.not_lt_zero j))
  exact h.trans (by decide)

/-- C7 counterexample: `""` is a title string with no known-make prefix, so
the claimed fallback demands make `""` (its first space-token) and model
`""`, but the code returns `{make: null, model: null}`. -/
theorem C7_counterexample :
    parseMakeModel (some "") = (none, none)
    ∧ parseMakeModel (some "") ≠ (some "", some "") := by
  decide

/-- C7 (amended): for every nonempty title, the first known manufacturer that
prefixes the title (in the fixed list order) becomes the make and the trimmed
remainder the model; with no known-make prefix the title splits at spaces
into first-token make and rejoined-remainder model; a null or empty title
gives null make and model; and `"Mercedes-Benz C 200"` parses to
`{make:"Mercedes-Benz", model:"C 200"}`. -/
theorem C7_amended_make_model_split :
    (∀ t : String, t ≠ "" → ∀ mk,
      knownMakes.find? (fun m => jsStartsWith t m) = some mk →
      parseMakeModel (some t) =
        (some mk, some (jsTrim (String.mk (t.toList.drop mk.toList.length)))))
    ∧ (∀ t : String, t ≠ "" →
        knownMakes.find? (fun m => jsStartsWith t m) = none →
        parseMakeModel (some t) =
          (some ((jsSplit t ' ').headD ""),
           some (" ".intercalate (jsSplit t ' ').tail)))
    ∧ parseMakeModel (some "Mercedes-Benz C 200") =
        (some "Mercedes-Benz", some "C 200")
    ∧ parseMakeModel none = (none, none)
    ∧ parseMakeModel (some "") = (none, none) := by
  refine ⟨?_, ?_, by decide, rfl, by decide⟩
  · intro t ht mk hfind
    simp only [parseMakeModel]
    rw [if_neg ht, hfind]
  · intro t ht hfind
    simp only [parseMakeModel]
    rw [if_neg ht, hfind]

/-- Witness for C7 at a concrete title with no known-make prefix. -/
theorem C7_witness :
    parseMakeModel (some "Dacia Duster") = (some "Dacia", some "Duster") := by
  have h := C7_amended_make_model_split.2.1 "Dacia Duster" (by decide) (by decide)
  exact h.trans (by decide)

/-- C3: a candidate whose computed fingerprint is in the known set
short-circuits — `scrapeListingDetails` returns the skip marker with the run
log untouched and zero image-pipeline invocations, and the dealer loop step
for it appends no listing and increments the skip counter by exactly 1,
whatever state the loop is in. -/
theorem C3_dedup_short_circuit (raw : RawData) (url suffix : String)
    (existing : List String) (f : ImgProc) (log : SyncLog)
    (h : rawFingerprint raw ∈ existing) :
    scrapeListingDetails raw url existing f suffix log =
      (.skipped raw.title, log, 0)
    ∧ (∀ ls lg, dealerStep existing f (ls, lg) ⟨url, .ok raw, suffix⟩ =
        (ls, { lg with listingsSkipped := lg.listingsSkipped + 1 })) := by
  constructor
  · simp [scrapeListingDetails, h]
  · intro ls lg
    simp [dealerStep, scrapeListingDetails, h]

/-- Witness for C3 with a one-element known set holding the candidate's own
fingerprint. -/
theorem C3_witness :
    scrapeListingDetails emptyRaw "u" [rawFingerprint emptyRaw] noopProc "s"
      emptyLog = (.skipped "", emptyLog, 0)
    ∧ dealerStep [rawFingerprint emptyRaw] noopProc ([], emptyLog)
        ⟨"u", .ok emptyRaw, "s"⟩ = ([], ⟨0, 0, 1, 0, []⟩) := by
  have h := C3_dedup_short_circuit emptyRaw "u" "s" [rawFingerprint emptyRaw]
    noopProc emptyLog (List.mem_singleton.mpr rfl)
  exact ⟨h.1, h.2 [] emptyLog⟩

/-- A page with 15 source images whose fourth image (index 3) throws in the
pipeline while every other one uploads successfully. -/
def c4Raw : RawData :=
  { emptyRaw with
    title := "BMW 320d"
    images := ["i1", "i2", "i3", "i4", "i5", "i6", "i7", "i8", "i9", "i10",
               "i11", "i12", "i13", "i14", "i15"] }

def c4Proc : ImgProc := fun i _ =>
  if i = 3 then .error "image fetch failed" else .ok (some ("r" ++ toString i))

/-- C4 counterexample: with 15 source images and image #4 failing, exactly 10
are attempted and the listing keeps the other 9 in order — but the run
report's error list stays empty, not the claimed "exactly one error entry"
(the catch only console-logs; nothing is pushed to `syncLog.errors`). -/
theorem C4_counterexample :
    (buildListing c4Raw "u" c4Proc "s").1.images =
      ["r0", "r1", "r2", "r4", "r5", "r6", "r7", "r8", "r9"]
    ∧ (buildListing c4Raw "u" c4Proc "s").2.2 = 10
    ∧ ((scrapeListingDetails c4Raw "u" [] c4Proc "s" emptyLog).2.1).errors.length
        = 0
    ∧ ((scrapeListingDetails c4Raw "u" [] c4Proc "s" emptyLog).2.1).errors.length
        ≠ 1 := by
  decide

/-- C4 (amended): exactly min(n, 10) images are attempted (excess dropped
before processing); a failing image is caught and skipped so later images and
the listing proceed; the listing's images are exactly the successful uploads
in source order; and per-image failures leave the run report's error list
unchanged — they are console-logged only, with no error entry recorded. -/
theorem C4_amended_image_cap_and_failures (raw : RawData)
    (url suffix : String) (f : ImgProc) (existing : List String)
    (log : SyncLog) :
    (buildListing raw url f suffix).2.2 = min raw.images.length 10
    ∧ (buildListing raw url f suffix).1.images =
        (List.range (min raw.images.length 10)).filterMap
          (imgSuccess f raw.images)
    ∧ ((scrapeListingDetails raw url existing f suffix log).2.1).errors =
        log.errors := by
  refine ⟨?_, ?_, ?_⟩
  · simp [buildListing, imageLoop_spec]
  · simp [buildListing, imageLoop_spec]
  · by_cases hm : rawFingerprint raw ∈ existing <;>
      simp [scrapeListingDetails, hm]

/-- C5: the known-fingerprint set is a run-start snapshot — every candidate
of a dealer run is judged against the same preloaded set, never against
listings produced earlier in the run, so two same-run candidates sharing a
not-yet-known fingerprint are both processed and neither is counted skipped. -/
theorem C5_fingerprint_snapshot (existing : List String) (f : ImgProc) :
    (∀ maxPer cands log,
      (scrapeDealer maxPer cands existing f log).1 =
        (cands.take maxPer).filterMap (candListing existing f))
    ∧ (∀ (url1 url2 suffix1 suffix2 : String) (raw1 raw2 : RawData)
        (log : SyncLog) (maxPer : Nat), 2 ≤ maxPer →
        rawFingerprint raw1 = rawFingerprint raw2 →
        rawFingerprint raw1 ∉ existing →
        (scrapeDealer maxPer
            [⟨url1, .ok raw1, suffix1⟩, ⟨url2, .ok raw2, suffix2⟩]
            existing f log).1 =
          [(buildListing raw1 url1 f suffix1).1,
           (buildListing raw2 url2 f suffix2).1]
        ∧ (scrapeDealer maxPer
            [⟨url1, .ok raw1, suffix1⟩, ⟨url2, .ok raw2, suffix2⟩]
            existing f log).2.listingsSkipped = log.listingsSkipped) := by
  constructor
  · intro maxPer cands log
    rw [scrapeDealer_listings]
    rfl
  · intro url1 url2 suffix1 suffix2 raw1 raw2 log maxPer hcap hfp hmem
    have hmem2 : rawFingerprint raw2 ∉ existing := by rwa [hfp] at hmem
    have htake : List.take maxPer
        [(⟨url1, .ok raw1, suffix1⟩ : Candidate), ⟨url2, .ok raw2, suffix2⟩] =
        [⟨url1, .ok raw1, suffix1⟩, ⟨url2, .ok raw2, suffix2⟩] :=
      List.take_of_length_le (by simpa using hcap)
    constructor
    · rw [scrapeDealer_listings]
      unfold dealerListings
      rw [htake]
      simp [candListing, hmem, hmem2]
    · unfold scrapeDealer
      rw [htake]
      simp [dealerStep, scrapeListingDetails, hmem, hmem2]

/-- Two raw pages parsing to the same fingerprint, differing in colour. -/
def c5RawA : RawData := { emptyRaw with title := "Audi A4", color := "Rot" }

def c5RawB : RawData := { emptyRaw with title := "Audi A4", color := "Blau" }

/-- Witness for C5: both same-fingerprint candidates of one run are kept. -/
theorem C5_witness :
    (scrapeDealer 10 [⟨"u1", .ok c5RawA, "s1"⟩, ⟨"u2", .ok c5RawB, "s2"⟩]
        [] noopProc emptyLog).1 =
      [(buildListing c5RawA "u1" noopProc "s1").1,
       (buildListing c5RawB "u2" noopProc "s2").1]
    ∧ (scrapeDealer 10 [⟨"u1", .ok c5RawA, "s1"⟩, ⟨"u2", .ok c5RawB, "s2"⟩]
        [] noopProc emptyLog).2.listingsSkipped = 0 := by
  have h := (C5_fingerprint_snapshot [] noopProc).2 "u1" "u2" "s1" "s2"
    c5RawA c5RawB emptyLog 10 (by omega) rfl (by simp)
  exact ⟨h.1, h.2⟩

/-- C8: the run enforces both caps — each dealer contributes at most
`maxListingsPerDealer` listings; the list handed to the insertion loop never
exceeds `maxTotalListings`; it is exactly the concatenated per-dealer results
truncated at the global cap (so partial results of the in-progress dealer are
kept); and once the cap is reached within a dealer prefix, any further
dealers leave the result unchanged (iteration halts). -/
theorem C8_caps (maxTotal maxPer : Nat) (existing : List String)
    (f : ImgProc) :
    (∀ cands log, ((scrapeDealer maxPer cands existing f log).1).length ≤ maxPer)
    ∧ (∀ dealers log,
        ((mainRun maxTotal maxPer dealers existing f log).1).length ≤ maxTotal)
    ∧ (∀ dealers log, (mainRun maxTotal maxPer dealers existing f log).1 =
        ((dealers.map (dealerListings maxPer existing f)).flatten).take maxTotal)
    ∧ (∀ ds more log,
        maxTotal ≤ ((ds.map (dealerListings maxPer existing f)).flatten).length →
        (mainRun maxTotal maxPer (ds ++ more) existing f log).1 =
          (mainRun maxTotal maxPer ds existing f log).1) := by
  refine ⟨?_, ?_, ?_, ?_⟩
  · intro cands log
    rw [scrapeDealer_listings]
    calc (dealerListings maxPer existing f cands).length
        ≤ (cands.take maxPer).length := List.length_filterMap_le _ _
      _ ≤ maxPer := by rw [List.length_take]; exact min_le_left _ _
  · intro dealers log
    rw [mainRun_listings, List.length_take]
    exact min_le_left _ _
  · intro dealers log
    exact mainRun_listings maxTotal maxPer dealers existing f log
  · intro ds more log h
    rw [mainRun_listings, mainRun_listings, List.map_append,
      List.flatten_append, List.take_append_of_le_length h]

def c8Cand : Candidate := ⟨"u1", .ok c4Raw, "s1"⟩

def c8Cand2 : Candidate := ⟨"u2", .error "network down", "s2"⟩

/-- Witness for C8: with a global cap of 1 already reached by the first
dealer, appending a second dealer does not change the result. -/
theorem C8_witness :
    (mainRun 1 5 ([[c8Cand]] ++ [[c8Cand2]]) [] noopProc emptyLog).1 =
      (mainRun 1 5 [[c8Cand]] [] noopProc emptyLog).1 :=
  (C8_caps 1 5 [] noopProc).2.2.2 [[c8Cand]] [[c8Cand2]] emptyLog (by decide)

/-- C9: an assembled listing's condition is never null — it is `"NEW"` exactly
when the raw condition text contains "neuwagen" case-insensitively and
`"USED"` otherwise, including when the raw condition field is absent (empty);
and `accident_damaged` is never `true` — it is `false` exactly when the text
contains "unfallfrei" case-insensitively, and null otherwise. -/
theorem C9_condition_defaults (raw : RawData) (url suffix : String)
    (f : ImgProc) :
    ((buildListing raw url f suffix).1.condition = "NEW"
      ∨ (buildListing raw url f suffix).1.condition = "USED")
    ∧ ((buildListing raw url f suffix).1.condition = "NEW"
        ↔ jsIncludes (jsToLower raw.condition) "neuwagen" = true)
    ∧ (buildListing raw url f suffix).1.accident_damaged ≠ some true
    ∧ ((buildListing raw url f suffix).1.accident_damaged = some false
        ↔ jsIncludes (jsToLower raw.condition) "unfallfrei" = true)
    ∧ ((buildListing raw url f suffix).1.accident_damaged = none
        ↔ jsIncludes (jsToLower raw.condition) "unfallfrei" = false)
    ∧ (raw.condition = "" →
        (buildListing raw url f suffix).1.condition = "USED"
        ∧ (buildListing raw url f suffix).1.accident_damaged = none) := by
  have hc : (buildListing raw url f suffix).1.condition =
      (if jsIncludes (jsToLower raw.condition) "neuwagen" then "NEW"
       else "USED") := by
    simp [buildListing]
  have ha : (buildListing raw url f suffix).1.accident_damaged =
      (if jsIncludes (jsToLower raw.condition) "unfallfrei" then some false
       else none) := by
    simp [buildListing]
  rw [hc, ha]
  by_cases h1 : jsIncludes (jsToLower raw.condition) "neuwagen" <;>
    by_cases h2 : jsIncludes (jsToLower raw.condition) "unfallfrei" <;>
      simp [h1, h2] <;>
        (intro he; rw [he] at h1 h2; revert h1 h2; decide)

/-- Witness for C9: a page with no condition text yields `"USED"` and a null
accident flag. -/
theorem C9_witness :
    (buildListing emptyRaw "u" noopProc "s").1.condition = "USED"
    ∧ (buildListing emptyRaw "u" noopProc "s").1.accident_damaged = none :=
  (C9_condition_defaults emptyRaw "u" "s" noopProc).2.2.2.2.2 rfl

end Carlink
